import Mathlib

/-!
Shallow embedding of the quiz analyzer (`ai_analyzer.py`).

Modelling conventions, used throughout:

* Python numbers are modelled as follows: integer counts as `Int`, and the
  accuracy / completion percentages (Python floats) as exact rationals `ℚ`.
  At every comparison, rounding and formatting step outside the study plan,
  IEEE-754 double rounding lands on the same side of each threshold as the
  exact rational does, so it is abstracted away there. The one place where
  the double roundings change a result is the study-plan minute allocation
  (the double product 180 * 0.35 is one ulp below 63), so the product and
  quotient roundings of that computation are modelled faithfully by
  `float64`.
* A Python `dict` preserves insertion order and has pairwise distinct keys;
  it is modelled as an association list `List (String × _)` whose order is
  the subject-iteration order of the source.
* `x.get(key, default)` on a possibly missing key is modelled with `Option`
  and `Option.getD`.
* `list.sort(key=...)` is the stable sort of Python; a stable sort by a rational
  key is extensionally unique, and `List.insertionSort` with the reflexive
  key order is such a stable sort, so it is used for the embedding.
* `round(x, 2)` and the `%.0f` format both round half to even; `int(x)`
  truncates toward zero.
* `str.capitalize()` uppercases the first character and lowercases the rest
  (modelled with the ASCII `Char.toUpper` / `Char.toLower`).
* The `analysis_id` / `timestamp` / `student_id` passthrough fields of the
  result are clock- or identity-derived and carry no logic; they are left
  out of the embedded result record (spec section 6 marks the analysis as
  deterministic except for those fields).
-/

/-- One quiz-count record: the shape of `overall` and of each subject entry,
fields `total`, `correct`, `answered` (each defaulting to 0 when missing). -/
structure Counts where
  total : Int
  correct : Int
  answered : Int
deriving DecidableEq

/-- Input structure consumed by `QuizAnalyzer.analyze_results`: the `overall`
record and the `subjects` mapping, each possibly absent (`quiz_data.get`
with an empty-dict default). -/
structure QuizData where
  overall : Option Counts
  subjects : Option (List (String × Counts))
deriving DecidableEq

/-- Reading the overall key with an empty-record default, followed by
per-field reads defaulting to 0. -/
def qOverall (q : QuizData) : Counts :=
  q.overall.getD ⟨0, 0, 0⟩

/-- Reading the subjects key with an empty-mapping default. -/
def qSubjects (q : QuizData) : List (String × Counts) :=
  q.subjects.getD []

/-- `(correct / total * 100) if total > 0 else 0` — the guarded accuracy
formula repeated verbatim at every use site of the source; the guard means
the division is only ever evaluated with a positive denominator. -/
def accuracyOf (c : Counts) : ℚ :=
  if c.total > 0 then (c.correct : ℚ) / (c.total : ℚ) * 100 else 0

/-- `(answered / total * 100) if total > 0 else 0` from `_analyze_overall`. -/
def completionOf (c : Counts) : ℚ :=
  if c.total > 0 then (c.answered : ℚ) / (c.total : ℚ) * 100 else 0

/-- Round half to even to an integer, the tie-breaking used by the Python
builtin `round` and by `%.0f` formatting. -/
def roundHalfEven (q : ℚ) : Int :=
  if q - ⌊q⌋ < 1/2 then ⌊q⌋
  else if 1/2 < q - ⌊q⌋ then ⌊q⌋ + 1
  else if ⌊q⌋ % 2 = 0 then ⌊q⌋ else ⌊q⌋ + 1

/-- Python `round(x, 2)`. -/
def round2 (q : ℚ) : ℚ :=
  (roundHalfEven (q * 100) : ℚ) / 100

/-- Python `f string` formatting with `.0f`: render rounded to 0 decimals. -/
def formatF0 (q : ℚ) : String :=
  toString (roundHalfEven q)

/-- Python `int(x)`: truncation toward zero. -/
def pyInt (q : ℚ) : Int :=
  if 0 ≤ q then ⌊q⌋ else ⌈q⌉

/-- The value of the IEEE-754 64-bit double nearest to a positive rational
(53-bit significand, ties to even): scale by the power of two that puts the
value in the binade of width `2 ^ 52`, round to an integer half-to-even,
and scale back. Zero maps to zero. Subnormal underflow and overflow lie far
outside every value this development applies `float64` to and are not
modelled. -/
def float64 (q : ℚ) : ℚ :=
  if q = 0 then 0
  else (roundHalfEven (q * 2 ^ ((52 : ℤ) - Int.log 2 q)) : ℚ) /
    2 ^ ((52 : ℤ) - Int.log 2 q)

/-- Python `str.capitalize()`: first character uppercased, rest lowercased. -/
def pyCapitalize (s : String) : String :=
  match s.data with
  | [] => ""
  | c :: cs => String.mk (c.toUpper :: cs.map Char.toLower)

/-- The performance-level / message ladder of `_analyze_overall`
(top-down, first match wins, inclusive lower bounds). -/
def levelMsg (a : ℚ) : String × String :=
  if a ≥ 85 then
    ("Excellent", "Outstanding performance! You have a strong grasp of the material.")
  else if a ≥ 70 then
    ("Good", "Good work! Focus on weak areas to reach excellence.")
  else if a ≥ 50 then
    ("Average", "You\x27re making progress. Consistent practice will improve your scores.")
  else
    ("Needs Improvement", "Don\x27t worry! With focused study, you can significantly improve.")

/-- `_get_status`. -/
def getStatus (a : ℚ) : String :=
  if a ≥ 85 then "Strong"
  else if a ≥ 70 then "Moderate"
  else if a ≥ 50 then "Weak"
  else "Critical"

/-- Output record of `_analyze_overall`. -/
structure OverallPerformance where
  accuracy : ℚ
  completion_rate : ℚ
  total_questions : Int
  correct_answers : Int
  incorrect_answers : Int
  unanswered : Int
  performance_level : String
  message : String
deriving DecidableEq

/-- `_analyze_overall`. -/
def analyzeOverall (q : QuizData) : OverallPerformance :=
  let o := qOverall q
  let a := accuracyOf o
  let c := completionOf o
  { accuracy := round2 a
    completion_rate := round2 c
    total_questions := o.total
    correct_answers := o.correct
    incorrect_answers := o.answered - o.correct
    unanswered := o.total - o.answered
    performance_level := (levelMsg a).1
    message := (levelMsg a).2 }

/-- Per-subject record built by `_analyze_subjects`. -/
structure SubjectReport where
  accuracy : ℚ
  correct : Int
  total : Int
  wrong : Int
  status : String
  improvement_needed : Bool
  priority : String
deriving DecidableEq

/-- The body of the `_analyze_subjects` loop for one subject record. -/
def subjectReport (st : Counts) : SubjectReport :=
  let a := accuracyOf st
  { accuracy := round2 a
    correct := st.correct
    total := st.total
    wrong := st.total - st.correct
    status := getStatus a
    improvement_needed := decide (a < 70)
    priority := if a < 50 then "High" else if a < 70 then "Medium" else "Low" }

/-- `_analyze_subjects`: one report per subject, in iteration order. -/
def analyzeSubjects (q : QuizData) : List (String × SubjectReport) :=
  (qSubjects q).map fun p => (p.1, subjectReport p.2)

/-- The formatted strength line of `_identify_strengths`. -/
def strengthLine (s : String) (a : ℚ) : String :=
  pyCapitalize s ++ ": " ++ formatF0 a ++ "% accuracy - Excellent understanding"

/-- The contribution of one subject to the strengths list: a formatted line
when `accuracy >= 75`, nothing otherwise. -/
def mkStrength (s : String) (st : Counts) : Option String :=
  if 75 ≤ accuracyOf st then some (strengthLine s (accuracyOf st)) else none

/-- `_identify_strengths`: the qualifying lines, or the single placeholder
encouragement when none qualify. -/
def identifyStrengths (q : QuizData) : List String :=
  let l := (qSubjects q).filterMap fun p => mkStrength p.1 p.2
  if l.isEmpty then ["Keep practicing to identify your strong subjects"] else l

/-- `_get_action_plan`. -/
def getActionPlan (subject : String) (a : ℚ) : String :=
  if a < 40 then
    "Start with fundamentals. Review basic concepts in " ++ subject ++
      " before attempting practice questions."
  else if a < 60 then
    "Focus on understanding core concepts. Practice more " ++ subject ++
      " questions and review mistakes."
  else
    "You\x27re close! Practice advanced " ++ subject ++
      " problems and review common error patterns."

/-- One entry of the weaknesses list of `_identify_weaknesses`. -/
structure Weakness where
  subject : String
  accuracy : ℚ
  questions_wrong : Int
  severity : String
  action : String
deriving DecidableEq

/-- The contribution of one subject to the weaknesses list: a record when
`accuracy < 70`, nothing otherwise. -/
def mkWeakness (s : String) (st : Counts) : Option Weakness :=
  let a := accuracyOf st
  if a < 70 then
    some { subject := pyCapitalize s
           accuracy := round2 a
           questions_wrong := st.total - st.correct
           severity := if a < 50 then "Critical" else "Moderate"
           action := getActionPlan s a }
  else none

/-- `_identify_weaknesses`: collect the sub-70 records in iteration order and
stable-sort them ascending by their (rounded) `accuracy` field, exactly the
key used by `weaknesses.sort(key=lambda x: x[accuracy])`. -/
def identifyWeaknesses (q : QuizData) : List Weakness :=
  List.insertionSort (fun u v => u.accuracy ≤ v.accuracy)
    ((qSubjects q).filterMap fun p => mkWeakness p.1 p.2)

/-- One recommendation record of `_generate_recommendations`. -/
structure Recommendation where
  priority : String
  subject : String
  title : String
  description : String
  action_items : List String
deriving DecidableEq

/-- Recommendation 1 of `_generate_recommendations` (weakest subject). -/
def weakestRecommendation (s : String) (a : ℚ) : Recommendation :=
  { priority := "High"
    subject := pyCapitalize s
    title := "Focus on " ++ pyCapitalize s
    description := "Your " ++ s ++ " score is " ++ formatF0 a ++
      "%. This needs immediate attention. Dedicate at least 1-2 hours daily to strengthen this subject."
    action_items :=
      ["Review fundamental " ++ s ++ " concepts",
       "Practice 10-15 questions daily",
       "Watch tutorial videos on weak topics",
       "Make summary notes of key concepts"] }

/-- Recommendation 2 of `_generate_recommendations` (completion). -/
def completionRecommendation (unanswered : Int) : Recommendation :=
  { priority := "Medium"
    subject := "All Subjects"
    title := "Complete All Questions"
    description := "You left " ++ toString unanswered ++
      " questions unanswered. Always attempt all questions to maximize learning."
    action_items :=
      ["Practice time management",
       "Attempt educated guesses for uncertain answers",
       "Review questions you skipped"] }

/-- Recommendation 3 of `_generate_recommendations` (strongest subject). -/
def strengthRecommendation (s : String) (a : ℚ) : Recommendation :=
  { priority := "Low"
    subject := pyCapitalize s
    title := "Maintain Your " ++ pyCapitalize s ++ " Strength"
    description := "You scored " ++ formatF0 a ++ "% in " ++ s ++
      "! Keep practicing to maintain this level."
    action_items :=
      ["Solve advanced " ++ s ++ " problems",
       "Help peers who struggle with this subject",
       "Take mock tests to stay sharp"] }

/-- `subject_scores` of `_generate_recommendations`: every subject paired
with its (unrounded) accuracy, stable-sorted ascending by accuracy. -/
def sortedScores (q : QuizData) : List (String × ℚ) :=
  List.insertionSort (fun u v => u.2 ≤ v.2)
    ((qSubjects q).map fun p => (p.1, accuracyOf p.2))

/-- The recommendation-1 block: fires when the sorted score list is nonempty
and its head (the weakest subject) is below 70. -/
def weakestRecList (l : List (String × ℚ)) : List Recommendation :=
  match l with
  | [] => []
  | (s, a) :: _ => if a < 70 then [weakestRecommendation s a] else []

/-- The recommendation-2 block: fires when `answered < total` overall. -/
def completionRecList (o : Counts) : List Recommendation :=
  if o.answered < o.total then [completionRecommendation (o.total - o.answered)] else []

/-- The recommendation-3 block: fires when the sorted score list is nonempty
and its last element (the strongest subject) is at least 75. -/
def strengthRecList (l : List (String × ℚ)) : List Recommendation :=
  match l.getLast? with
  | none => []
  | some (s, a) => if 75 ≤ a then [strengthRecommendation s a] else []

/-- `_generate_recommendations`: the three guarded blocks in source order. -/
def generateRecommendations (q : QuizData) : List Recommendation :=
  weakestRecList (sortedScores q) ++ completionRecList (qOverall q) ++
    strengthRecList (sortedScores q)

/-- One `daily_schedule` entry of `_create_study_plan`. -/
structure Alloc where
  time_minutes : Int
  focus_level : String
deriving DecidableEq

/-- Output record of `_create_study_plan`. -/
structure StudyPlan where
  daily_schedule : List (String × Alloc)
  weekly_goals : List String
  study_duration : String
deriving DecidableEq

/-- `_create_study_plan`: banded time share, `int(180 * share / n)` minutes
per subject, focus levels, and the weekly goal strings. The share literals
are the doubles written 0.40 / 0.35 / 0.25 in the source, and the product
`180 * share` and its quotient by the subject count are each rounded as
doubles (`float64`); the double product of the middle band is one ulp below
63, which is why `int()` can land one below the exact floor. The conversion
of the subject count itself to a double is exact for every count below
`2 ^ 53` and is not modelled. -/
def createStudyPlan (q : QuizData) : StudyPlan :=
  let subjects := qSubjects q
  let schedule := subjects.map fun p =>
    let a := accuracyOf p.2
    let timePercent : ℚ :=
      if a < 50 then float64 0.40 else if a < 70 then float64 0.35 else float64 0.25
    (p.1,
      { time_minutes := pyInt (float64 (float64 (180 * timePercent) / (subjects.length : ℚ)))
        focus_level := if a < 60 then "High" else if a < 75 then "Medium" else "Maintenance"
        : Alloc })
  let goals := subjects.map fun p =>
    let a := accuracyOf p.2
    let target : Int := if a < 60 then 70 else if a < 80 then 85 else 90
    "Improve " ++ pyCapitalize p.1 ++ " from " ++ formatF0 a ++ "% to " ++
      toString target ++ "%"
  { daily_schedule := schedule
    weekly_goals := goals
    study_duration := "2-3 hours daily" }

/-- Output of `analyze_results` (minus the clock-derived fields). -/
structure Analysis where
  overall_performance : OverallPerformance
  subject_analysis : List (String × SubjectReport)
  recommendations : List Recommendation
  study_plan : StudyPlan
  strengths : List String
  weaknesses : List Weakness
deriving DecidableEq

/-- `QuizAnalyzer.analyze_results`. -/
def analyzeResults (q : QuizData) : Analysis :=
  { overall_performance := analyzeOverall q
    subject_analysis := analyzeSubjects q
    recommendations := generateRecommendations q
    study_plan := createStudyPlan q
    strengths := identifyStrengths q
    weaknesses := identifyWeaknesses q }

/-- A parsed top-level JSON input to `analyze_quiz_results`. A value that is
a JSON object is a `QuizData`; any non-object value (array, number, string,
boolean, null) makes every `.get` call raise `AttributeError`, so all such
values behave identically and are collapsed into `nonMapping`, carrying the
text of the exception they raise. -/
inductive TopInput where
  | mapping (q : QuizData)
  | nonMapping (errText : String)
deriving DecidableEq

/-- Result of `analyze_quiz_results`: either the serialized analysis or the
structured failure object with keys `error` and `status`. -/
inductive ApiResult where
  | ok (a : Analysis)
  | err (error : String) (status : String)
deriving DecidableEq

/-- `analyze_quiz_results`: run the analyzer inside `try`; a non-mapping
input raises on its first `.get` and is returned as the structured
`error` / `status: failed` object instead of propagating. -/
def analyzeQuizResults : TopInput → ApiResult
  | .mapping q => .ok (analyzeResults q)
  | .nonMapping e => .err e "failed"

/-- The sample scenario of the main block of the source and of the spec:
overall 45 correct of 75 (70 answered), biology 10/16 (16 answered),
chemistry 18/26 (24 answered), physics 17/33 (30 answered). -/
def sampleQuiz : QuizData :=
  { overall := some ⟨75, 45, 70⟩
    subjects := some
      [("biology", ⟨16, 10, 16⟩), ("chemistry", ⟨26, 18, 24⟩), ("physics", ⟨33, 17, 30⟩)] }

/-- Stated from the specification text (section 4.5), for comparison with
the code: the banded time share, 0.40 below 50 percent accuracy, 0.35 below
70, else 0.25. -/
def claimedShare (a : ℚ) : ℚ :=
  if a < 50 then 0.40 else if a < 70 then 0.35 else 0.25

/-- Stated from the specification text (section 4.5), for comparison with
the code: per-subject minutes are `floor (180 * share / number_of_subjects)`. -/
def claimedMinutes (a : ℚ) (n : Nat) : Int :=
  ⌊(180 : ℚ) * claimedShare a / (n : ℚ)⌋

/-- Stated from the amended claim: the IEEE-754 double value of the product
`180 * share` per accuracy band. For the 0.40 band the product rounds to
exactly 72 and for the 0.25 band it is exactly 45, but for the 0.35 band it
is `8866461766385663 / 2 ^ 47 = 63 - 2 ^ (-47)`, one ulp below 63. -/
def claimedDoubleProduct (a : ℚ) : ℚ :=
  if a < 50 then 72 else if a < 70 then 8866461766385663 / 2 ^ 47 else 45

instance : IsTotal Weakness (fun u v => u.accuracy ≤ v.accuracy) :=
  ⟨fun a b => le_total a.accuracy b.accuracy⟩

instance : IsTrans Weakness (fun u v => u.accuracy ≤ v.accuracy) :=
  ⟨fun _ _ _ h h2 => le_trans h h2⟩

/-! Helper lemmas shared by several claim theorems. -/

theorem pyInt_of_nonneg (q : ℚ) (h : 0 ≤ q) : pyInt q = ⌊q⌋ := by
  simp [pyInt, h]

theorem round2_zero : round2 0 = 0 := by
  norm_num [round2, roundHalfEven]

theorem length_filterMap_count {α β : Type _} (f : α → Option β) (l : List α) :
    (l.filterMap f).length = l.countP fun a => (f a).isSome := by
  induction l with
  | nil => rfl
  | cons a l ih =>
    cases h : f a <;> simp [List.filterMap_cons, h, List.countP_cons, ih]

theorem filterMap_ite_eq_map_filter {α β : Type _} (P : α → Prop) [DecidablePred P]
    (g : α → β) (l : List α) :
    (l.filterMap fun a => if P a then some (g a) else none) =
      (l.filter fun a => decide (P a)).map g := by
  induction l with
  | nil => rfl
  | cons a l ih => by_cases h : P a <;> simp [List.filterMap_cons, List.filter_cons, h, ih]

theorem filter_key_orderedInsert {α : Type _} (f : α → ℚ) (x : ℚ) (a : α) (l : List α) :
    (List.orderedInsert (fun u v => f u ≤ f v) a l).filter (fun v => decide (f v = x)) =
      if f a = x then a :: l.filter (fun v => decide (f v = x))
      else l.filter (fun v => decide (f v = x)) := by
  induction l with
  | nil =>
    by_cases h : f a = x <;> simp [List.orderedInsert, List.filter, h]
  | cons b l ih =>
    by_cases hab : f a ≤ f b
    · simp only [List.orderedInsert, if_pos hab]
      by_cases h : f a = x <;> by_cases hb : f b = x <;>
        simp [List.filter_cons, h, hb]
    · simp only [List.orderedInsert, if_neg hab]
      have hba : f b < f a := not_le.mp hab
      by_cases h : f a = x
      · have hbx : ¬ f b = x := by
          intro he
          rw [h] at hba
          rw [he] at hba
          exact lt_irrefl x hba
        simp [List.filter_cons, h, hbx, ih]
      · by_cases hb : f b = x <;> simp [List.filter_cons, h, hb, ih]

theorem filter_key_insertionSort {α : Type _} (f : α → ℚ) (x : ℚ) (l : List α) :
    (List.insertionSort (fun u v => f u ≤ f v) l).filter (fun v => decide (f v = x)) =
      l.filter (fun v => decide (f v = x)) := by
  induction l with
  | nil => rfl
  | cons a l ih =>
    simp only [List.insertionSort]
    rw [filter_key_orderedInsert]
    by_cases h : f a = x <;> simp [List.filter_cons, h, ih]

theorem mkWeakness_isSome (s : String) (st : Counts) :
    (mkWeakness s st).isSome = decide (accuracyOf st < 70) := by
  by_cases h : accuracyOf st < 70 <;> simp [mkWeakness, h]

/-! Claim theorems. -/

/-- Accuracy of the sample biology record. -/
theorem acc_bio : accuracyOf ⟨16, 10, 16⟩ = 62.5 := by norm_num [accuracyOf]

/-- Accuracy of the sample chemistry record. -/
theorem acc_chem : accuracyOf ⟨26, 18, 24⟩ = 900 / 13 := by norm_num [accuracyOf]

/-- Accuracy of the sample physics record. -/
theorem acc_phys : accuracyOf ⟨33, 17, 30⟩ = 1700 / 33 := by norm_num [accuracyOf]

/-- Accuracy of the sample overall record. -/
theorem acc_overall : accuracyOf ⟨75, 45, 70⟩ = 60 := by norm_num [accuracyOf]

/-- Rounding an integral percentage is the identity. -/
theorem r2_sixty : round2 (60 : ℚ) = 60 := by
  norm_num [round2, roundHalfEven, Int.fract]

/-- Rounding the sample biology accuracy. -/
theorem r2_bio : round2 ((125 : ℚ) / 2) = 125 / 2 := by
  norm_num [round2, roundHalfEven, Int.fract]

/-- Rounding the sample chemistry accuracy. -/
theorem r2_chem : round2 ((900 : ℚ) / 13) = 6923 / 100 := by
  norm_num [round2, roundHalfEven, Int.fract]

/-- Rounding the sample physics accuracy. -/
theorem r2_phys : round2 ((1700 : ℚ) / 33) = 1288 / 25 := by
  norm_num [round2, roundHalfEven, Int.fract]

/-- Subject-analysis record of the sample biology entry. -/
theorem rep_bio : subjectReport ⟨16, 10, 16⟩ = ⟨62.5, 10, 16, 6, "Weak", true, "Medium"⟩ := by
  simp only [subjectReport, acc_bio]
  norm_num [getStatus, r2_bio]

/-- Subject-analysis record of the sample chemistry entry. -/
theorem rep_chem : subjectReport ⟨26, 18, 24⟩ = ⟨69.23, 18, 26, 8, "Weak", true, "Medium"⟩ := by
  simp only [subjectReport, acc_chem]
  norm_num [getStatus, r2_chem]

/-- Subject-analysis record of the sample physics entry. -/
theorem rep_phys : subjectReport ⟨33, 17, 30⟩ = ⟨51.52, 17, 33, 16, "Weak", true, "Medium"⟩ := by
  simp only [subjectReport, acc_phys]
  norm_num [getStatus, r2_phys]

/-- Weakness record contributed by the sample biology entry. -/
theorem wk_bio :
    mkWeakness ("biology") ⟨16, 10, 16⟩ =
      some ⟨pyCapitalize ("biology"), 62.5, 6, "Moderate", getActionPlan ("biology") (62.5 : ℚ)⟩ := by
  simp only [mkWeakness, acc_bio]
  norm_num [r2_bio]

/-- Weakness record contributed by the sample chemistry entry. -/
theorem wk_chem :
    mkWeakness ("chemistry") ⟨26, 18, 24⟩ =
      some ⟨pyCapitalize ("chemistry"), 69.23, 8, "Moderate",
        getActionPlan ("chemistry") ((900 : ℚ) / 13)⟩ := by
  simp only [mkWeakness, acc_chem]
  norm_num [r2_chem]

/-- Weakness record contributed by the sample physics entry. -/
theorem wk_phys :
    mkWeakness ("physics") ⟨33, 17, 30⟩ =
      some ⟨pyCapitalize ("physics"), 51.52, 16, "Moderate",
        getActionPlan ("physics") ((1700 : ℚ) / 33)⟩ := by
  simp only [mkWeakness, acc_phys]
  norm_num [r2_phys]

/-- The fully evaluated weaknesses list of the sample scenario: sorted
ascending by rounded accuracy, physics first, chemistry last. -/
theorem sample_weaknesses :
    identifyWeaknesses sampleQuiz =
      [⟨pyCapitalize ("physics"), 51.52, 16, "Moderate", getActionPlan ("physics") ((1700 : ℚ) / 33)⟩,
       ⟨pyCapitalize ("biology"), 62.5, 6, "Moderate", getActionPlan ("biology") (62.5 : ℚ)⟩,
       ⟨pyCapitalize ("chemistry"), 69.23, 8, "Moderate",
         getActionPlan ("chemistry") ((900 : ℚ) / 13)⟩] := by
  simp only [identifyWeaknesses, sampleQuiz, qSubjects, Option.getD_some,
    List.filterMap_cons, wk_bio, wk_chem, wk_phys, List.filterMap_nil,
    List.insertionSort, List.orderedInsert]
  norm_num

/-- The sorted subject score pairs of the sample scenario. -/
theorem sample_scores :
    sortedScores sampleQuiz =
      [("physics", (1700 : ℚ) / 33), ("biology", (62.5 : ℚ)), ("chemistry", (900 : ℚ) / 13)] := by
  simp only [sortedScores, sampleQuiz, qSubjects, Option.getD_some, List.map_cons,
    List.map_nil, acc_bio, acc_chem, acc_phys, List.insertionSort, List.orderedInsert]
  norm_num

/-- C1 (counterexample): on the sample scenario the weaknesses sequence is
not ordered physics, chemistry, biology as the claim states. -/
theorem c1_weakness_order_refuted :
    (identifyWeaknesses sampleQuiz).map (fun w => w.subject) ≠
      ["Physics", "Chemistry", "Biology"] := by
  rw [sample_weaknesses]
  decide

/-- C1 (amended): on the sample scenario the overall accuracy is 60.0 with
level Average; the subject accuracies are 62.5 (biology), 69.23 (chemistry)
and 51.52 (physics), each with status Weak and priority Medium; the
weaknesses sequence is ordered physics, biology, chemistry (ascending
accuracy); recommendation 1 fires for physics, recommendation 2 fires, and
recommendation 3 does not fire. -/
theorem c1_sample_scenario :
    (analyzeOverall sampleQuiz).accuracy = 60 ∧
    (analyzeOverall sampleQuiz).performance_level = "Average" ∧
    (analyzeSubjects sampleQuiz).map (fun p => (p.1, p.2.accuracy, p.2.status, p.2.priority)) =
      [("biology", (62.5 : ℚ), "Weak", "Medium"),
       ("chemistry", (69.23 : ℚ), "Weak", "Medium"),
       ("physics", (51.52 : ℚ), "Weak", "Medium")] ∧
    (identifyWeaknesses sampleQuiz).map (fun w => w.subject) =
      ["Physics", "Biology", "Chemistry"] ∧
    (generateRecommendations sampleQuiz).map (fun r => (r.priority, r.subject)) =
      [("High", "Physics"), ("Medium", "All Subjects")] := by
  refine ⟨?_, ?_, ?_, ?_, ?_⟩
  · rw [show (analyzeOverall sampleQuiz).accuracy =
        round2 (accuracyOf (qOverall sampleQuiz)) from rfl]
    rw [show qOverall sampleQuiz = ⟨75, 45, 70⟩ from rfl, acc_overall, r2_sixty]
  · rw [show (analyzeOverall sampleQuiz).performance_level =
        (levelMsg (accuracyOf (qOverall sampleQuiz))).1 from rfl]
    rw [show qOverall sampleQuiz = ⟨75, 45, 70⟩ from rfl, acc_overall]
    norm_num [levelMsg]
  · simp only [analyzeSubjects, sampleQuiz, qSubjects, Option.getD_some, List.map_cons,
      List.map_nil, rep_bio, rep_chem, rep_phys]
  · rw [sample_weaknesses]
    decide
  · rw [generateRecommendations, sample_scores]
    rw [show qOverall sampleQuiz = ⟨75, 45, 70⟩ from rfl]
    simp only [weakestRecList, completionRecList, strengthRecList, List.getLast?]
    norm_num [weakestRecommendation, completionRecommendation, strengthRecommendation]
    decide

/-- C3: a record with `total = 0` yields accuracy 0 and completion rate 0
wherever they are computed (the guard makes the division unreachable), both
as raw values and in the reported overall and per-subject records. -/
theorem c3_zero_total_guard :
    (∀ c : Counts, c.total = 0 →
      accuracyOf c = 0 ∧ completionOf c = 0 ∧ (subjectReport c).accuracy = 0) ∧
    (∀ q : QuizData, (qOverall q).total = 0 →
      (analyzeOverall q).accuracy = 0 ∧ (analyzeOverall q).completion_rate = 0) := by
  have hacc : ∀ c : Counts, c.total = 0 → accuracyOf c = 0 := by
    intro c h; simp [accuracyOf, h]
  have hcom : ∀ c : Counts, c.total = 0 → completionOf c = 0 := by
    intro c h; simp [completionOf, h]
  refine ⟨fun c h => ⟨hacc c h, hcom c h, ?_⟩, fun q h => ⟨?_, ?_⟩⟩ <;>
    simp [subjectReport, analyzeOverall, hacc _ h, hcom _ h, round2_zero]

/-- C3 witness: a concrete record with `total = 0`. -/
theorem c3_zero_total_guard_witness :
    accuracyOf ⟨0, 5, 3⟩ = 0 ∧ completionOf ⟨0, 5, 3⟩ = 0 ∧
      (subjectReport ⟨0, 5, 3⟩).accuracy = 0 :=
  c3_zero_total_guard.1 ⟨0, 5, 3⟩ rfl

/-- C4: the performance-level and status ladders use inclusive lower bounds:
accuracy exactly 85 classifies as Excellent and Strong, exactly 70 as Good
and Moderate, exactly 50 as Average and Weak, never the band below. -/
theorem c4_boundary_classification :
    ((levelMsg 85).1 = "Excellent" ∧ getStatus 85 = "Strong") ∧
    ((levelMsg 70).1 = "Good" ∧ getStatus 70 = "Moderate") ∧
    ((levelMsg 50).1 = "Average" ∧ getStatus 50 = "Weak") := by decide

/-- C9: a subject with accuracy in the band from 70 inclusive to 75
exclusive contributes nothing to the strengths list and nothing to the
weaknesses list (both per-subject contributions are `none`, and the two
lists are built solely from those contributions), while its
subject-analysis record reports status Moderate with
`improvement_needed = false`. -/
theorem c9_moderate_band (s : String) (st : Counts)
    (h1 : 70 ≤ accuracyOf st) (h2 : accuracyOf st < 75) :
    mkStrength s st = none ∧ mkWeakness s st = none ∧
    (subjectReport st).status = "Moderate" ∧
    (subjectReport st).improvement_needed = false ∧
    ∀ q : QuizData, (s, st) ∈ qSubjects q → (s, subjectReport st) ∈ analyzeSubjects q := by
  have h85 : ¬ accuracyOf st ≥ 85 := not_le.mpr (lt_of_lt_of_le h2 (by norm_num))
  refine ⟨?_, ?_, ?_, ?_, ?_⟩
  · simp [mkStrength, not_le.mpr h2]
  · simp [mkWeakness, not_lt.mpr h1]
  · simp [subjectReport, getStatus, h85, ge_iff_le, h1]
  · simp [subjectReport, not_lt.mpr h1]
  · intro q hq
    exact List.mem_map_of_mem _ hq

/-- C9 witness: a concrete subject at 72 percent accuracy. -/
theorem c9_moderate_band_witness :
    mkStrength ("algebra") ⟨25, 18, 20⟩ = none ∧
    mkWeakness ("algebra") ⟨25, 18, 20⟩ = none ∧
    (subjectReport ⟨25, 18, 20⟩).status = "Moderate" ∧
    (subjectReport ⟨25, 18, 20⟩).improvement_needed = false := by
  have h := c9_moderate_band ("algebra") ⟨25, 18, 20⟩ (by norm_num [accuracyOf])
    (by norm_num [accuracyOf])
  exact ⟨h.1, h.2.1, h.2.2.1, h.2.2.2.1⟩

/-- C2: for every input, the weaknesses sequence is a permutation of the
per-subject contributions (exactly the subjects with accuracy below 70, one
record each), its length is the count of sub-70 subjects, it is sorted
non-decreasing by the accuracy stored in the records (the sort key the code
uses), and subjects with equal accuracy keep their original
subject-iteration order (the filtered-by-key subsequences are unchanged by
the sort). -/
theorem c2_weaknesses_sorted_stable (q : QuizData) :
    (identifyWeaknesses q).Perm ((qSubjects q).filterMap fun p => mkWeakness p.1 p.2) ∧
    List.Sorted (fun u v : Weakness => u.accuracy ≤ v.accuracy) (identifyWeaknesses q) ∧
    (identifyWeaknesses q).length =
      (qSubjects q).countP (fun p => decide (accuracyOf p.2 < 70)) ∧
    ∀ x : ℚ, (identifyWeaknesses q).filter (fun w => decide (w.accuracy = x)) =
      ((qSubjects q).filterMap fun p => mkWeakness p.1 p.2).filter
        (fun w => decide (w.accuracy = x)) := by
  refine ⟨List.perm_insertionSort _ _, List.sorted_insertionSort _ _, ?_, ?_⟩
  · calc (identifyWeaknesses q).length
        = ((qSubjects q).filterMap fun p => mkWeakness p.1 p.2).length :=
          (List.perm_insertionSort _ _).length_eq
      _ = (qSubjects q).countP (fun p => decide (accuracyOf p.2 < 70)) := by
          rw [length_filterMap_count]
          simp only [mkWeakness_isSome]
  · intro x
    exact filter_key_insertionSort (fun w : Weakness => w.accuracy) x _

/-- The weakest-subject block emits at most one recommendation and never the
completion one. -/
theorem weakestRecList_props (l : List (String × ℚ)) :
    (weakestRecList l).length ≤ 1 ∧
    (weakestRecList l).countP
      (fun r => decide (r.priority = "Medium" ∧ r.subject = "All Subjects")) = 0 := by
  cases l with
  | nil => simp [weakestRecList]
  | cons hd tl =>
    obtain ⟨s, a⟩ := hd
    by_cases h : a < 70 <;>
      simp [weakestRecList, h, weakestRecommendation, List.countP_cons]

/-- The completion block emits exactly one recommendation when
`answered < total` and none otherwise, and that recommendation carries
priority Medium and subject All Subjects. -/
theorem completionRecList_props (o : Counts) :
    (completionRecList o).length ≤ 1 ∧
    (completionRecList o).countP
      (fun r => decide (r.priority = "Medium" ∧ r.subject = "All Subjects")) =
      if o.answered < o.total then 1 else 0 := by
  by_cases h : o.answered < o.total <;>
    simp [completionRecList, h, completionRecommendation, List.countP_cons]

/-- The strongest-subject block emits at most one recommendation and never
the completion one. -/
theorem strengthRecList_props (l : List (String × ℚ)) :
    (strengthRecList l).length ≤ 1 ∧
    (strengthRecList l).countP
      (fun r => decide (r.priority = "Medium" ∧ r.subject = "All Subjects")) = 0 := by
  cases h : l.getLast? with
  | none => simp [strengthRecList, h]
  | some p =>
    obtain ⟨s, a⟩ := p
    by_cases h75 : (75 : ℚ) ≤ a <;>
      simp [strengthRecList, h, h75, strengthRecommendation, List.countP_cons]

/-- C5: the recommendation list never has more than three entries, and the
completion recommendation (priority Medium, subject All Subjects) occurs in
it exactly once when `answered < total` at the overall level and never
otherwise, independently of the subjects mapping and of the other two
blocks. -/
theorem c5_recommendation_count_and_completion (q : QuizData) :
    (generateRecommendations q).length ≤ 3 ∧
    (generateRecommendations q).countP
        (fun r => decide (r.priority = "Medium" ∧ r.subject = "All Subjects")) =
      if (qOverall q).answered < (qOverall q).total then 1 else 0 := by
  have h1 := weakestRecList_props (sortedScores q)
  have h2 := completionRecList_props (qOverall q)
  have h3 := strengthRecList_props (sortedScores q)
  unfold generateRecommendations
  constructor
  · rw [List.length_append, List.length_append]
    omega
  · rw [List.countP_append, List.countP_append, h1.2, h2.2, h3.2]
    omega

/-- The half-to-even rounding is within one half of its argument. -/
theorem roundHalfEven_err (y : ℚ) : |(roundHalfEven y : ℚ) - y| ≤ 1 / 2 := by
  have h0 : (⌊y⌋ : ℚ) ≤ y := Int.floor_le y
  have h1 : y < ⌊y⌋ + 1 := Int.lt_floor_add_one y
  simp only [roundHalfEven]
  split_ifs with ha hb hc
  · rw [abs_of_nonpos (by linarith)]
    linarith
  · push_cast
    rw [abs_of_nonneg (by linarith)]
    linarith
  · have he : y - ⌊y⌋ = 1 / 2 := le_antisymm (not_lt.mp hb) (not_lt.mp ha)
    rw [abs_of_nonpos (by linarith)]
    linarith
  · have he : y - ⌊y⌋ = 1 / 2 := le_antisymm (not_lt.mp hb) (not_lt.mp ha)
    push_cast
    rw [abs_of_nonneg (by linarith)]
    linarith

/-- The half-to-even rounding fixes integers. -/
theorem roundHalfEven_intCast (m : ℤ) : roundHalfEven (m : ℚ) = m := by
  norm_num [roundHalfEven, Int.floor_intCast]

/-- Characterization of the binary logarithm used by `float64`. -/
theorem int_log_eq {r : ℚ} (hr : 0 < r) {e : ℤ} (h1 : (2 : ℚ) ^ e ≤ r)
    (h2 : r < (2 : ℚ) ^ (e + 1)) : Int.log 2 r = e := by
  have hc : ((2 : ℕ) : ℚ) = 2 := by norm_num
  have hle : e ≤ Int.log 2 r := (Int.zpow_le_iff_le_log one_lt_two hr).mp (by rw [hc]; exact h1)
  have hlt : Int.log 2 r < e + 1 :=
    (Int.lt_zpow_iff_log_lt one_lt_two hr).mp (by rw [hc]; exact h2)
  omega

/-- Unfolding `float64` at a known binade. -/
theorem float64_eval {q : ℚ} (hq : 0 < q) {e : ℤ} (h1 : (2 : ℚ) ^ e ≤ q)
    (h2 : q < (2 : ℚ) ^ (e + 1)) :
    float64 q = (roundHalfEven (q * 2 ^ ((52 : ℤ) - e)) : ℚ) / 2 ^ ((52 : ℤ) - e) := by
  simp only [float64]
  rw [if_neg hq.ne', int_log_eq hq h1 h2]

/-- The double rounding of a positive value has error at most `q / 2 ^ 53`
(one half ulp). -/
theorem float64_abs_sub {q : ℚ} (hq : 0 < q) : |float64 q - q| ≤ q / 2 ^ 53 := by
  have hc : ((2 : ℕ) : ℚ) = 2 := by norm_num
  have h1 : (2 : ℚ) ^ Int.log 2 q ≤ q := by
    rw [← hc]; exact Int.zpow_log_le_self one_lt_two hq
  have h2 : q < (2 : ℚ) ^ (Int.log 2 q + 1) := by
    rw [← hc]; exact Int.lt_zpow_succ_log_self one_lt_two q
  rw [float64_eval hq h1 h2]
  have hs : (0 : ℚ) < 2 ^ ((52 : ℤ) - Int.log 2 q) := zpow_pos (by norm_num) _
  have herr := roundHalfEven_err (q * 2 ^ ((52 : ℤ) - Int.log 2 q))
  have hrw : (roundHalfEven (q * 2 ^ ((52 : ℤ) - Int.log 2 q)) : ℚ) /
        2 ^ ((52 : ℤ) - Int.log 2 q) - q =
      ((roundHalfEven (q * 2 ^ ((52 : ℤ) - Int.log 2 q)) : ℚ) -
        q * 2 ^ ((52 : ℤ) - Int.log 2 q)) / 2 ^ ((52 : ℤ) - Int.log 2 q) := by
    field_simp
    ring
  rw [hrw, abs_div, abs_of_pos hs, div_le_div_iff₀ hs (by norm_num : (0 : ℚ) < 2 ^ 53)]
  have hpow : (2 : ℚ) ^ Int.log 2 q * 2 ^ ((52 : ℤ) - Int.log 2 q) = 2 ^ (52 : ℤ) := by
    rw [← zpow_add₀ (two_ne_zero : (2 : ℚ) ≠ 0)]
    congr 1
    ring
  have hqs : (2 : ℚ) ^ (52 : ℤ) ≤ q * 2 ^ ((52 : ℤ) - Int.log 2 q) := by
    rw [← hpow]
    exact mul_le_mul_of_nonneg_right h1 (le_of_lt hs)
  calc |(roundHalfEven (q * 2 ^ ((52 : ℤ) - Int.log 2 q)) : ℚ) -
        q * 2 ^ ((52 : ℤ) - Int.log 2 q)| * 2 ^ 53
      ≤ (1 / 2) * 2 ^ 53 := mul_le_mul_of_nonneg_right herr (by norm_num)
    _ = (2 : ℚ) ^ (52 : ℤ) := by norm_num
    _ ≤ q * 2 ^ ((52 : ℤ) - Int.log 2 q) := hqs

/-- The double rounding preserves nonnegativity. -/
theorem float64_nonneg (q : ℚ) (hq : 0 ≤ q) : 0 ≤ float64 q := by
  rcases eq_or_lt_of_le hq with h | h
  · rw [← h]
    simp [float64]
  · have habs := float64_abs_sub h
    have hlow := (abs_le.mp habs).1
    have hself : q / 2 ^ 53 ≤ q := div_le_self (le_of_lt h) (by norm_num)
    linarith

/-- Positive integers below `2 ^ 53` are exactly representable as doubles. -/
theorem float64_natCast (m : ℕ) (h0 : 0 < m) (h53 : m < 2 ^ 53) : float64 (m : ℚ) = m := by
  have hq : (0 : ℚ) < m := by exact_mod_cast h0
  have hc : ((2 : ℕ) : ℚ) = 2 := by norm_num
  have he0 : 0 ≤ Int.log 2 (m : ℚ) := by
    have h1m : ((2 : ℕ) : ℚ) ^ (0 : ℤ) ≤ (m : ℚ) := by
      rw [hc]
      norm_num
      exact_mod_cast h0
    exact (Int.zpow_le_iff_le_log one_lt_two hq).mp h1m
  have he52 : Int.log 2 (m : ℚ) ≤ 52 := by
    have hm53 : (m : ℚ) < ((2 : ℕ) : ℚ) ^ (53 : ℤ) := by
      rw [hc, show (53 : ℤ) = ((53 : ℕ) : ℤ) by norm_num, zpow_natCast]
      exact_mod_cast h53
    have := (Int.lt_zpow_iff_log_lt one_lt_two hq).mp hm53
    omega
  obtain ⟨k, hk⟩ : ∃ k : ℕ, (52 : ℤ) - Int.log 2 (m : ℚ) = (k : ℤ) :=
    ⟨((52 : ℤ) - Int.log 2 (m : ℚ)).toNat, (Int.toNat_of_nonneg (by omega)).symm⟩
  have hF : float64 (m : ℚ) =
      (roundHalfEven ((m : ℚ) * 2 ^ ((52 : ℤ) - Int.log 2 (m : ℚ))) : ℚ) /
        2 ^ ((52 : ℤ) - Int.log 2 (m : ℚ)) := by
    simp only [float64]
    rw [if_neg hq.ne']
  rw [hF, hk]
  have harg : (m : ℚ) * (2 : ℚ) ^ ((k : ℕ) : ℤ) = (((m * 2 ^ k : ℕ) : ℤ) : ℚ) := by
    push_cast [zpow_natCast]
    ring
  rw [harg, roundHalfEven_intCast]
  push_cast [zpow_natCast]
  rw [mul_div_assoc, div_self (by positivity), mul_one]

/-- Rounding the quotient of an integer below `2 ^ 53` by a positive
integer to a double never crosses an integer boundary: the gap from the
exact quotient to the nearest other integer is at least `1 / N`, while the
rounding moves the value by at most `M / (N * 2 ^ 53) < 1 / N`. -/
theorem floor_float64_natDiv (M N : ℕ) (hM : 0 < M) (h53 : M < 2 ^ 53) (hN : 0 < N) :
    ⌊float64 ((M : ℚ) / (N : ℚ))⌋ = ⌊(M : ℚ) / (N : ℚ)⌋ := by
  have hNq : (0 : ℚ) < (N : ℚ) := by exact_mod_cast hN
  have hMq : (0 : ℚ) < (M : ℚ) := by exact_mod_cast hM
  have hx : (0 : ℚ) < (M : ℚ) / (N : ℚ) := div_pos hMq hNq
  by_cases hdvd : N ∣ M
  · obtain ⟨c, hc⟩ := hdvd
    have hcne : c ≠ 0 := by rintro rfl; omega
    have hc0 : 0 < c := Nat.pos_of_ne_zero hcne
    have hcM : c ≤ M := by
      subst hc
      calc c = 1 * c := (one_mul c).symm
        _ ≤ N * c := Nat.mul_le_mul_right c hN
    have hxc : (M : ℚ) / (N : ℚ) = (c : ℚ) := by
      subst hc
      push_cast
      rw [mul_comm, mul_div_assoc, div_self hNq.ne', mul_one]
    rw [hxc, float64_natCast c hc0 (lt_of_le_of_lt hcM h53)]
  · have hNx : (N : ℚ) * ((M : ℚ) / (N : ℚ)) = M := by
      rw [mul_comm]
      exact div_mul_cancel₀ _ hNq.ne'
    set x : ℚ := (M : ℚ) / (N : ℚ)
    have hfl : (⌊x⌋ : ℚ) ≤ x := Int.floor_le x
    have hfu : x < ⌊x⌋ + 1 := Int.lt_floor_add_one x
    have hfl0 : 0 ≤ ⌊x⌋ := Int.floor_nonneg.mpr (le_of_lt hx)
    have hfrac_pos : (0 : ℚ) < x - ⌊x⌋ := by
      rcases lt_or_eq_of_le hfl with h | h
      · linarith
      · exfalso
        apply hdvd
        refine ⟨⌊x⌋.toNat, ?_⟩
        have hMq2 : (M : ℚ) = (N : ℚ) * (⌊x⌋ : ℚ) := by rw [h, hNx]
        have hMZ : (M : ℤ) = (N : ℤ) * ⌊x⌋ := by exact_mod_cast hMq2
        zify
        rw [Int.toNat_of_nonneg hfl0]
        exact hMZ
    have hint1 : (1 : ℚ) ≤ (N : ℚ) * (x - ⌊x⌋) := by
      have heq : (N : ℚ) * (x - ⌊x⌋) = (((M : ℤ) - (N : ℤ) * ⌊x⌋ : ℤ) : ℚ) := by
        push_cast
        rw [mul_sub, hNx]
      have hp : (0 : ℚ) < (((M : ℤ) - (N : ℤ) * ⌊x⌋ : ℤ) : ℚ) := by
        rw [← heq]
        exact mul_pos hNq hfrac_pos
      have hpz : (0 : ℤ) < (M : ℤ) - (N : ℤ) * ⌊x⌋ := by exact_mod_cast hp
      rw [heq]
      exact_mod_cast hpz
    have hint2 : (1 : ℚ) ≤ (N : ℚ) * ((⌊x⌋ + 1) - x) := by
      have heq : (N : ℚ) * ((⌊x⌋ + 1) - x) = (((N : ℤ) * (⌊x⌋ + 1) - (M : ℤ) : ℤ) : ℚ) := by
        push_cast
        rw [mul_sub, hNx]
      have hp : (0 : ℚ) < (((N : ℤ) * (⌊x⌋ + 1) - (M : ℤ) : ℤ) : ℚ) := by
        rw [← heq]
        apply mul_pos hNq
        linarith
      have hpz : (0 : ℤ) < (N : ℤ) * (⌊x⌋ + 1) - (M : ℤ) := by exact_mod_cast hp
      rw [heq]
      exact_mod_cast hpz
    have hb1 : (1 : ℚ) / (N : ℚ) ≤ x - ⌊x⌋ := by
      rw [div_le_iff₀ hNq]
      rw [mul_comm] at hint1
      exact hint1
    have hb2 : (1 : ℚ) / (N : ℚ) ≤ (⌊x⌋ + 1) - x := by
      rw [div_le_iff₀ hNq]
      rw [mul_comm] at hint2
      exact hint2
    have hsmall : x / 2 ^ 53 < 1 / (N : ℚ) := by
      rw [div_lt_div_iff₀ (by norm_num) hNq, one_mul, mul_comm]
      rw [hNx]
      exact_mod_cast h53
    have herr := float64_abs_sub hx
    have hlo : (⌊x⌋ : ℚ) ≤ float64 x := by
      have h := (abs_le.mp herr).1
      linarith
    have hhi : float64 x < (⌊x⌋ : ℚ) + 1 := by
      have h := (abs_le.mp herr).2
      linarith
    exact Int.floor_eq_iff.mpr ⟨hlo, hhi⟩

/-- The double value of the source literal 0.40. -/
theorem float64_lit_040 : float64 (0.40 : ℚ) = 3602879701896397 / 2 ^ 53 := by
  have h1 : (2 : ℚ) ^ (-2 : ℤ) ≤ 0.40 := by norm_num
  have h2 : (0.40 : ℚ) < (2 : ℚ) ^ ((-2 : ℤ) + 1) := by norm_num
  rw [float64_eval (by norm_num) h1 h2]
  norm_num [roundHalfEven, Int.fract]

/-- The double value of the source literal 0.35. -/
theorem float64_lit_035 : float64 (0.35 : ℚ) = 3152519739159347 / 2 ^ 53 := by
  have h1 : (2 : ℚ) ^ (-2 : ℤ) ≤ 0.35 := by norm_num
  have h2 : (0.35 : ℚ) < (2 : ℚ) ^ ((-2 : ℤ) + 1) := by norm_num
  rw [float64_eval (by norm_num) h1 h2]
  norm_num [roundHalfEven, Int.fract]

/-- The source literal 0.25 is exactly representable. -/
theorem float64_lit_025 : float64 (0.25 : ℚ) = 0.25 := by
  have h1 : (2 : ℚ) ^ (-2 : ℤ) ≤ 0.25 := by norm_num
  have h2 : (0.25 : ℚ) < (2 : ℚ) ^ ((-2 : ℤ) + 1) := by norm_num
  rw [float64_eval (by norm_num) h1 h2]
  norm_num [roundHalfEven, Int.fract]

/-- The double product `180 * 0.40` rounds to exactly 72. -/
theorem float64_prod_040 : float64 (180 * (3602879701896397 / 2 ^ 53 : ℚ)) = 72 := by
  have h1 : (2 : ℚ) ^ (6 : ℤ) ≤ 180 * (3602879701896397 / 2 ^ 53 : ℚ) := by norm_num
  have h2 : 180 * (3602879701896397 / 2 ^ 53 : ℚ) < (2 : ℚ) ^ ((6 : ℤ) + 1) := by norm_num
  rw [float64_eval (by norm_num) h1 h2]
  norm_num [roundHalfEven, Int.fract]

/-- The double product `180 * 0.35` rounds to one ulp below 63. -/
theorem float64_prod_035 :
    float64 (180 * (3152519739159347 / 2 ^ 53 : ℚ)) = 8866461766385663 / 2 ^ 47 := by
  have h1 : (2 : ℚ) ^ (5 : ℤ) ≤ 180 * (3152519739159347 / 2 ^ 53 : ℚ) := by norm_num
  have h2 : 180 * (3152519739159347 / 2 ^ 53 : ℚ) < (2 : ℚ) ^ ((5 : ℤ) + 1) := by norm_num
  rw [float64_eval (by norm_num) h1 h2]
  norm_num [roundHalfEven, Int.fract]

/-- The double product `180 * share` per band equals the amended-claim
constant. -/
theorem band_product (a : ℚ) :
    float64 (180 * (if a < 50 then float64 0.40 else if a < 70 then float64 0.35
      else float64 0.25)) = claimedDoubleProduct a := by
  rw [float64_lit_040, float64_lit_035, float64_lit_025]
  unfold claimedDoubleProduct
  split_ifs
  · exact float64_prod_040
  · exact float64_prod_035
  · rw [show (180 : ℚ) * 0.25 = ((45 : ℕ) : ℚ) by norm_num]
    simpa using float64_natCast 45 (by norm_num) (by norm_num)

/-- The study-plan minutes equal the floor of the double product divided by
the subject count: the final double division never moves the value across
an integer, so truncation equals the exact floor of `D / n`. -/
theorem minutes_eq_floor (a : ℚ) (n : ℕ) :
    pyInt (float64 (float64 (180 * (if a < 50 then float64 0.40
        else if a < 70 then float64 0.35 else float64 0.25)) / (n : ℚ))) =
      ⌊claimedDoubleProduct a / (n : ℚ)⌋ := by
  rw [band_product]
  rcases Nat.eq_zero_or_pos n with hn | hn
  · subst hn
    norm_num [float64, pyInt]
  · have hnq : (0 : ℚ) < (n : ℚ) := by exact_mod_cast hn
    have hPpos : 0 < claimedDoubleProduct a := by
      unfold claimedDoubleProduct
      split_ifs <;> norm_num
    have hxq : (0 : ℚ) ≤ claimedDoubleProduct a / (n : ℚ) := le_of_lt (div_pos hPpos hnq)
    rw [pyInt_of_nonneg _ (float64_nonneg _ hxq)]
    unfold claimedDoubleProduct
    split_ifs
    · rw [show (72 : ℚ) = ((72 : ℕ) : ℚ) by norm_num]
      exact floor_float64_natDiv 72 n (by norm_num) (by norm_num) hn
    · have hre : (8866461766385663 / 2 ^ 47 : ℚ) / (n : ℚ) =
          ((8866461766385663 : ℕ) : ℚ) / (((n * 2 ^ 47 : ℕ) : ℕ) : ℚ) := by
        push_cast
        ring
      rw [hre]
      exact floor_float64_natDiv 8866461766385663 (n * 2 ^ 47) (by norm_num) (by norm_num)
        (by positivity)
    · rw [show (45 : ℚ) = ((45 : ℕ) : ℚ) by norm_num]
      exact floor_float64_natDiv 45 n (by norm_num) (by norm_num) hn

/-- The daily schedule evaluated: every entry carries the floor of the
double product over the subject count. -/
theorem studyPlan_schedule_eq (q : QuizData) :
    ((createStudyPlan q).daily_schedule).map (fun e => (e.1, e.2.time_minutes)) =
      (qSubjects q).map (fun p => (p.1,
        ⌊claimedDoubleProduct (accuracyOf p.2) / ((qSubjects q).length : ℚ)⌋)) := by
  simp only [createStudyPlan, List.map_map]
  apply List.map_congr_left
  intro p hp
  simp only [Function.comp_apply]
  rw [minutes_eq_floor]

/-- C6 (counterexample): the floor formula of the claim fails on the code.
With a single subject at 60 percent accuracy the schedule allocates
`int(180 * 0.35 / 1) = 62` minutes, because the double product `180 * 0.35`
is one ulp below 63, while the exact-arithmetic `floor (180 * 0.35 / 1)` of
the claim is 63. -/
theorem c6_floor_formula_refuted :
    ((createStudyPlan ⟨some ⟨0, 0, 0⟩, some [("math", ⟨10, 6, 8⟩)]⟩).daily_schedule).map
        (fun e => (e.1, e.2.time_minutes)) ≠
      (qSubjects ⟨some ⟨0, 0, 0⟩, some [("math", ⟨10, 6, 8⟩)]⟩).map
        (fun p => (p.1, claimedMinutes (accuracyOf p.2)
          (qSubjects ⟨some ⟨0, 0, 0⟩, some [("math", ⟨10, 6, 8⟩)]⟩).length)) := by
  rw [studyPlan_schedule_eq]
  norm_num [qSubjects, Option.getD_some, accuracyOf, claimedDoubleProduct, claimedMinutes,
    claimedShare]

/-- C6 (amended): every daily-schedule entry allocates
`floor (D / number_of_subjects)` minutes, where D is the IEEE-754 double
value of the product `180 * share` and share is 0.40 below 50 percent
accuracy, 0.35 below 70, else 0.25: D = 72 for the 0.40 band and D = 45 for
the 0.25 band, but D = `63 - 2 ^ (-47)` (one ulp below 63) for the 0.35
band, so a single middle-band subject receives 62 minutes, not 63; and an
empty subjects mapping yields an empty schedule and empty weekly goals (no
division ever happens). -/
theorem c6_study_plan_double_formula (q : QuizData) :
    ((createStudyPlan q).daily_schedule).map (fun e => (e.1, e.2.time_minutes)) =
      (qSubjects q).map (fun p => (p.1,
        ⌊claimedDoubleProduct (accuracyOf p.2) / ((qSubjects q).length : ℚ)⌋)) ∧
    (qSubjects q = [] →
      (createStudyPlan q).daily_schedule = [] ∧ (createStudyPlan q).weekly_goals = []) := by
  refine ⟨studyPlan_schedule_eq q, fun h => ?_⟩
  simp [createStudyPlan, h]

/-- C6 witness: the three sample subjects all sit in the 0.35 band and each
receives `int(180 * 0.35 / 3) = 20` minutes (not 21: the double product is
below 63). -/
theorem c6_study_plan_double_formula_witness :
    ((createStudyPlan sampleQuiz).daily_schedule).map (fun e => (e.1, e.2.time_minutes)) =
      [("biology", 20), ("chemistry", 20), ("physics", 20)] := by
  rw [(c6_study_plan_double_formula sampleQuiz).1]
  simp only [sampleQuiz, qSubjects, Option.getD_some, List.map_cons, List.map_nil,
    List.length_cons, List.length_nil, acc_bio, acc_chem, acc_phys]
  norm_num [claimedDoubleProduct]

/-- C7: the strengths list is never empty: when no subject reaches 75
percent accuracy it is exactly the placeholder encouragement, and otherwise
it is exactly one formatted line per qualifying subject, in iteration
order. -/
theorem c7_strengths_nonempty (q : QuizData) :
    identifyStrengths q ≠ [] ∧
    ((qSubjects q).filter (fun p => decide (75 ≤ accuracyOf p.2)) = [] →
      identifyStrengths q = ["Keep practicing to identify your strong subjects"]) ∧
    ((qSubjects q).filter (fun p => decide (75 ≤ accuracyOf p.2)) ≠ [] →
      identifyStrengths q =
        ((qSubjects q).filter (fun p => decide (75 ≤ accuracyOf p.2))).map
          (fun p => strengthLine p.1 (accuracyOf p.2))) := by
  have hfm : ((qSubjects q).filterMap fun p => mkStrength p.1 p.2) =
      ((qSubjects q).filter (fun p => decide (75 ≤ accuracyOf p.2))).map
        (fun p => strengthLine p.1 (accuracyOf p.2)) := by
    simp only [mkStrength]
    exact filterMap_ite_eq_map_filter (fun p : String × Counts => 75 ≤ accuracyOf p.2)
      (fun p => strengthLine p.1 (accuracyOf p.2)) (qSubjects q)
  by_cases hnil : (qSubjects q).filter (fun p => decide (75 ≤ accuracyOf p.2)) = []
  · refine ⟨?_, fun _ => ?_, fun hne => absurd hnil hne⟩ <;>
      simp [identifyStrengths, hfm, hnil]
  · have hmap : ((qSubjects q).filter (fun p => decide (75 ≤ accuracyOf p.2))).map
        (fun p => strengthLine p.1 (accuracyOf p.2)) ≠ [] := by
      simpa using hnil
    refine ⟨?_, fun hh => absurd hh hnil, fun _ => ?_⟩ <;>
      simp [identifyStrengths, hfm, hmap]

/-- C7 witness: on the sample scenario no subject reaches 75 percent, so the
strengths list is exactly the placeholder. -/
theorem c7_strengths_nonempty_witness :
    identifyStrengths sampleQuiz = ["Keep practicing to identify your strong subjects"] :=
  (c7_strengths_nonempty sampleQuiz).2.1 (by
    simp only [sampleQuiz, qSubjects, Option.getD_some, List.filter_cons, List.filter_nil,
      acc_bio, acc_chem, acc_phys]
    norm_num)

/-- C8: the entry point fails exactly on non-mapping inputs, returning the
structured error object with status failed rather than crashing; a mapping
lacking the overall or subjects keys is analyzed with zero and empty
defaults, identically to one carrying explicit zero counts and an empty
subject mapping. -/
theorem c8_invalid_input_error :
    (∀ t : TopInput, (∃ e s, analyzeQuizResults t = .err e s) ↔ ∃ d, t = .nonMapping d) ∧
    (∀ d, analyzeQuizResults (.nonMapping d) = .err d "failed") ∧
    analyzeResults ⟨none, none⟩ = analyzeResults ⟨some ⟨0, 0, 0⟩, some []⟩ := by
  refine ⟨?_, fun d => rfl, rfl⟩
  intro t
  cases t with
  | mapping q => simp [analyzeQuizResults]
  | nonMapping d => simp [analyzeQuizResults]

/-- The per-subject allocation never exceeds the floor of 40 percent of the
180-minute budget divided by the subject count: every double product is at
most 72. -/
theorem minutes_le_floor_budget (a : ℚ) (n : ℕ) (hn : 0 < n) :
    pyInt (float64 (float64 (180 * (if a < 50 then float64 0.40
        else if a < 70 then float64 0.35 else float64 0.25)) / (n : ℚ))) ≤
      ⌊(180 : ℚ) * 0.40 / (n : ℚ)⌋ := by
  have hnq : (0 : ℚ) < (n : ℚ) := by exact_mod_cast hn
  rw [minutes_eq_floor]
  apply Int.floor_mono
  apply (div_le_div_iff_of_pos_right hnq).mpr
  have hP : claimedDoubleProduct a ≤ 72 := by
    unfold claimedDoubleProduct
    split_ifs <;> norm_num
  calc claimedDoubleProduct a ≤ 72 := hP
    _ = (180 : ℚ) * 0.40 := by norm_num

/-- C10: for a non-empty subjects mapping with n subjects every allocation
is at most `floor (180 * 0.40 / n)` minutes, and the daily-schedule minute
total never exceeds 72 minutes (40 percent of the 180-minute budget). -/
theorem c10_time_budget_bound (q : QuizData) (hne : qSubjects q ≠ []) :
    (∀ e ∈ (createStudyPlan q).daily_schedule,
        e.2.time_minutes ≤ ⌊(180 : ℚ) * 0.40 / ((qSubjects q).length : ℚ)⌋) ∧
    (((createStudyPlan q).daily_schedule).map (fun e => e.2.time_minutes)).sum ≤ 72 := by
  have hn : 0 < (qSubjects q).length := List.length_pos.mpr hne
  have hnq : (0 : ℚ) < ((qSubjects q).length : ℚ) := by exact_mod_cast hn
  constructor
  · intro e he
    simp only [createStudyPlan, List.mem_map] at he
    obtain ⟨p, hp, rfl⟩ := he
    exact minutes_le_floor_budget (accuracyOf p.2) (qSubjects q).length hn
  · have hmap : ((createStudyPlan q).daily_schedule).map (fun e => e.2.time_minutes) =
        (qSubjects q).map (fun p =>
          pyInt (float64 (float64 (180 * (if accuracyOf p.2 < 50 then float64 0.40
            else if accuracyOf p.2 < 70 then float64 0.35 else float64 0.25)) /
              ((qSubjects q).length : ℚ)))) := by
      simp only [createStudyPlan, List.map_map]
      rfl
    rw [hmap]
    have hall : ∀ x ∈ (qSubjects q).map (fun p =>
        pyInt (float64 (float64 (180 * (if accuracyOf p.2 < 50 then float64 0.40
          else if accuracyOf p.2 < 70 then float64 0.35 else float64 0.25)) /
            ((qSubjects q).length : ℚ)))),
        x ≤ ⌊(180 : ℚ) * 0.40 / ((qSubjects q).length : ℚ)⌋ := by
      intro x hx
      obtain ⟨p, hp, rfl⟩ := List.mem_map.mp hx
      exact minutes_le_floor_budget (accuracyOf p.2) (qSubjects q).length hn
    have hsum := List.sum_le_card_nsmul _ _ hall
    rw [List.length_map] at hsum
    have hBle : ((⌊(180 : ℚ) * 0.40 / ((qSubjects q).length : ℚ)⌋ : Int) : ℚ) ≤
        180 * 0.40 / ((qSubjects q).length : ℚ) := Int.floor_le _
    have h72 : (((qSubjects q).length : ℚ)) * (180 * 0.40 / ((qSubjects q).length : ℚ)) =
        72 := by
      rw [show (180 : ℚ) * 0.40 = 72 by norm_num, mul_comm, div_mul_cancel₀ _ hnq.ne']
    have hq72 : (((qSubjects q).length : ℚ)) *
        ((⌊(180 : ℚ) * 0.40 / ((qSubjects q).length : ℚ)⌋ : Int) : ℚ) ≤ 72 := by
      calc (((qSubjects q).length : ℚ)) *
            ((⌊(180 : ℚ) * 0.40 / ((qSubjects q).length : ℚ)⌋ : Int) : ℚ)
          ≤ (((qSubjects q).length : ℚ)) * (180 * 0.40 / ((qSubjects q).length : ℚ)) :=
            mul_le_mul_of_nonneg_left hBle (le_of_lt hnq)
        _ = 72 := h72
    have hfin : ((qSubjects q).length : Int) *
        ⌊(180 : ℚ) * 0.40 / ((qSubjects q).length : ℚ)⌋ ≤ 72 := by
      exact_mod_cast hq72
    calc ((qSubjects q).map _).sum
        ≤ (qSubjects q).length • ⌊(180 : ℚ) * 0.40 / ((qSubjects q).length : ℚ)⌋ := hsum
      _ = ((qSubjects q).length : Int) *
            ⌊(180 : ℚ) * 0.40 / ((qSubjects q).length : ℚ)⌋ := by rw [nsmul_eq_mul]
      _ ≤ 72 := hfin

/-- C10 witness: the sample scenario totals at most 72 minutes. -/
theorem c10_time_budget_bound_witness :
    (((createStudyPlan sampleQuiz).daily_schedule).map (fun e => e.2.time_minutes)).sum ≤ 72 :=
  (c10_time_budget_bound sampleQuiz (by simp [sampleQuiz, qSubjects])).2

/-- C2 witness: the sample scenario instance of the weakness-count equation. -/
theorem c2_weaknesses_sorted_stable_witness :
    (identifyWeaknesses sampleQuiz).length =
      (qSubjects sampleQuiz).countP (fun p => decide (accuracyOf p.2 < 70)) :=
  (c2_weaknesses_sorted_stable sampleQuiz).2.2.1

/-- C5 witness: the sample scenario emits at most three recommendations. -/
theorem c5_recommendation_count_and_completion_witness :
    (generateRecommendations sampleQuiz).length ≤ 3 :=
  (c5_recommendation_count_and_completion sampleQuiz).1

/-- C8 witness: a concrete non-mapping input is answered with the structured
failure object. -/
theorem c8_invalid_input_error_witness :
    analyzeQuizResults (.nonMapping ("AttributeError")) = .err ("AttributeError") "failed" :=
  c8_invalid_input_error.2.1 ("AttributeError")
